import Mathlib

/-!
Verification of the slack-status-updater worker.

The program is embedded shallowly: each outbound HTTP call is recorded in a
trace (`ApiCall`), and the responses the network would deliver are drawn from
an explicit `World`.  A `none` response models the fetch (or its JSON parsing)
throwing; a `some` response models a delivered JSON body.  Thrown JavaScript
errors are modelled by `Except Err`.
-/

namespace SlackStatusUpdater

/-- JavaScript falsiness of an optional string field parsed from JSON:
`undefined` (absent) and the empty string are falsy. -/
def jsFalsy : Option String → Bool
  | none => true
  | some s => s.isEmpty

/-- Environment bindings (wrangler secrets), from the `Env` interface. -/
structure Env where
  GOOGLE_CLIENT_ID : String
  GOOGLE_CLIENT_SECRET : String
  GOOGLE_REFRESH_TOKEN : String
  SLACK_USER_TOKEN : String
  SLACK_BOT_TOKEN : String
  SLACK_USER_ID : String
deriving DecidableEq

/-- Body of the Google token-refresh response.  `access_token` is optional
here because the code guards with a falsiness check (`!data.access_token`). -/
structure TokenResponse where
  access_token : Option String
  expires_in : Option Nat := none
deriving DecidableEq

/-- `workingLocationProperties.officeLocation` of a calendar event. -/
structure OfficeLocationProps where
  buildingId : Option String := none
  floorId : Option String := none
  deskId : Option String := none
  label : Option String := none
deriving DecidableEq

/-- `workingLocationProperties.customLocation` of a calendar event. -/
structure CustomLocationProps where
  label : Option String := none
deriving DecidableEq

/-- The structured working-location metadata of a calendar event. -/
structure WorkingLocationProperties where
  type : String
  officeLocation : Option OfficeLocationProps := none
  customLocation : Option CustomLocationProps := none
deriving DecidableEq

/-- A `start`/`end` time object of a calendar event. -/
structure EventTime where
  dateTime : String
  timeZone : String
  date : Option String := none
deriving DecidableEq

/-- A calendar event as consumed by the worker (`CalendarEvent` interface). -/
structure CalendarEvent where
  location : Option String := none
  summary : Option String := none
  start : Option EventTime := none
  «end» : Option EventTime := none
  workingLocationProperties : Option WorkingLocationProperties := none
deriving DecidableEq

/-- The error object of a calendar-list response. -/
structure CalendarError where
  code : Int
  message : String
  status : String
deriving DecidableEq

/-- Body of the calendar events-list response. -/
structure CalendarResponse where
  items : Option (List CalendarEvent) := none
  error : Option CalendarError := none
deriving DecidableEq

/-- A Slack API response carrying only `ok` and an optional error string. -/
structure SlackResponse where
  ok : Bool
  error : Option String := none
deriving DecidableEq

/-- The status part of a Slack user profile. -/
structure SlackProfile where
  status_text : String
  status_emoji : String
deriving DecidableEq

/-- Body of the `users.profile.get` response. -/
structure SlackProfileResponse where
  ok : Bool
  profile : SlackProfile
  error : Option String := none
deriving DecidableEq

/-- One outbound HTTP call issued by the worker, with the data it carries. -/
inductive ApiCall where
  | tokenRefresh (client_id client_secret refresh_token grant_type : String)
  | calendarEvents (bearer : String)
  | profileGet (bearer : String)
  | profileSet (bearer status_text status_emoji : String) (status_expiration : ℚ)
  | postMessage (bearer channel text : String)
deriving DecidableEq

/-- The network's behaviour for one invocation: the response each endpoint
would deliver (`none` = the fetch/JSON step throws), plus the clock.
`nowMs` is the current epoch time in milliseconds; `tzOffsetMs` is the amount
added to a UTC epoch time to obtain the runtime's local wall-clock time (the
`Date.setHours` family operates on local time). -/
structure World where
  tokenResp : Option TokenResponse
  calendarResp : Option CalendarResponse
  profileGetResp : Option SlackProfileResponse
  profileSetResp : Option SlackResponse
  postMessageResp : Option SlackResponse
  nowMs : Int
  tzOffsetMs : Int

/-- Errors thrown by the worker. -/
inductive Err where
  | authError
  | calendarApiError (msg : String)
  | slackApiError (msg : Option String)
  | netError
deriving DecidableEq

/-- Milliseconds per day. -/
def msPerDay : Int := 86400000

/-- Epoch milliseconds of today 23:59:59.999 in local wall-clock terms,
converted back to UTC: the result of
`today.setHours(23); setMinutes(59); setSeconds(59); setMilliseconds(999)`
applied to `new Date()` (the setters act on the local calendar day). -/
def endOfDayLocalMs (nowMs tzOffsetMs : Int) : Int :=
  let localMs := nowMs + tzOffsetMs
  localMs - localMs % msPerDay + 86399999 - tzOffsetMs

/-- The `status_expiration` the code computes: `today.getTime() / 1000`,
a non-integer JavaScript number since the milliseconds were set to 999. -/
def endOfDayExpirationSec (nowMs tzOffsetMs : Int) : ℚ :=
  ((endOfDayLocalMs nowMs tzOffsetMs : Int) : ℚ) / 1000

/-- Modelled from the spec: the instant "end of the current day, 23:59:59"
(in epoch seconds) that the spec's expiration sentence describes, for the
same local calendar day the code uses. -/
def specEndOfDay235959Sec (nowMs tzOffsetMs : Int) : ℚ :=
  (((nowMs + tzOffsetMs) - (nowMs + tzOffsetMs) % msPerDay + 86399000
      - tzOffsetMs : Int) : ℚ) / 1000

/-- The fixed reminder text of `sendSlackMessage`. -/
def reminderText : String :=
  "Please set your working location in Google Calendar for today."

/-- The fixed diagnostic text of `sendAuthFailureNotification`. -/
def authFailureText : String :=
  "🚨 *Google Authentication Failed* 🚨\nThe Google refresh token appears to have expired. Please generate a new refresh token by running `npx ts-node get_token.ts` and update your environment variables."

/-- `sendAuthFailureNotification`'s `try` body: posts the diagnostic message;
the fetch/JSON step may throw (`netError`); a delivered non-ok response is
only logged, never thrown. -/
def attemptAuthFailureNotification (w : World) (env : Env) :
    Except Err Unit × List ApiCall :=
  let calls := [ApiCall.postMessage env.SLACK_BOT_TOKEN env.SLACK_USER_ID
    authFailureText]
  match w.postMessageResp with
  | none => (.error .netError, calls)
  | some _ => (.ok (), calls)

/-- `sendAuthFailureNotification`: wraps the attempt in `try`/`catch`;
any error is caught and logged. -/
def sendAuthFailureNotification (w : World) (env : Env) :
    Except Err Unit × List ApiCall :=
  match attemptAuthFailureNotification w env with
  | (.error _, calls) => (.ok (), calls)
  | (.ok _, calls) => (.ok (), calls)

/-- `getGoogleAccessToken`: POSTs the refresh-token exchange; if the response
carries no (or an empty) `access_token`, sends the auth-failure notification
and throws. -/
def getGoogleAccessToken (w : World) (env : Env) :
    Except Err String × List ApiCall :=
  let calls := [ApiCall.tokenRefresh env.GOOGLE_CLIENT_ID
    env.GOOGLE_CLIENT_SECRET env.GOOGLE_REFRESH_TOKEN "refresh_token"]
  match w.tokenResp with
  | none => (.error .netError, calls)
  | some data =>
    if jsFalsy data.access_token then
      let n := sendAuthFailureNotification w env
      (.error .authError, calls ++ n.2)
    else
      (.ok (data.access_token.getD ""), calls)

/-- ASCII lowercasing, as `String.prototype.toLowerCase` acts on the
identifiers involved here. -/
def jsToLower (s : String) : String := ⟨s.data.map Char.toLower⟩

/-- Whether the first character list is a prefix of the second. -/
def isPrefixList : List Char → List Char → Bool
  | [], _ => true
  | _ :: _, [] => false
  | p :: ps, c :: cs => p = c && isPrefixList ps cs

/-- Whether the first character list occurs contiguously in the second. -/
def isInfixList (pat : List Char) : List Char → Bool
  | [] => isPrefixList pat []
  | c :: cs => isPrefixList pat (c :: cs) || isInfixList pat cs

/-- Case-insensitive substring test for "home", as
`s.toLowerCase().includes('home')`. -/
def containsHome (s : String) : Bool :=
  isInfixList "home".data (jsToLower s).data

/-- The event-scanning loop of `getGoogleCalendarWorkLocation`: only the
dedicated `workingLocationProperties` field is consulted; `officeLocation`
yields Office, a type containing "home" yields Home, anything else moves on
to the next event. -/
def findWorkLocation : List CalendarEvent → Option String
  | [] => none
  | e :: rest =>
    match e.workingLocationProperties with
    | some props =>
      if props.type = "officeLocation" then some "Office"
      else if containsHome props.type then some "Home"
      else findWorkLocation rest
    | none => findWorkLocation rest

/-- The events-list request URL, parameterised by the ISO timestamps of the
start and end of the current UTC day. -/
def calendarEventsUrl (timeMin timeMax : String) : String :=
  "https://www.googleapis.com/calendar/v3/calendars/primary/events?" ++
    "timeMin=" ++ timeMin ++ "&timeMax=" ++ timeMax ++
    "&orderBy=startTime&singleEvents=true&timeZone=UTC"

/-- `getGoogleCalendarWorkLocation`: obtains a token, lists today's events,
throws on a calendar API error object, and scans the items for a working
location (`items` defaults to the empty list). -/
def getGoogleCalendarWorkLocation (w : World) (env : Env) :
    Except Err (Option String) × List ApiCall :=
  match getGoogleAccessToken w env with
  | (.error e, calls) => (.error e, calls)
  | (.ok access_token, calls) =>
    let calls := calls ++ [ApiCall.calendarEvents access_token]
    match w.calendarResp with
    | none => (.error .netError, calls)
    | some data =>
      match data.error with
      | some err => (.error (.calendarApiError err.message), calls)
      | none => (.ok (findWorkLocation (data.items.getD [])), calls)

/-- `getCurrentSlackStatus`: GETs the profile; throws on a non-ok response;
returns `none` when both status text and emoji are (falsy, i.e.) empty. -/
def getCurrentSlackStatus (w : World) (env : Env) :
    Except Err (Option SlackProfile) × List ApiCall :=
  let calls := [ApiCall.profileGet env.SLACK_USER_TOKEN]
  match w.profileGetResp with
  | none => (.error .netError, calls)
  | some data =>
    if data.ok then
      if data.profile.status_text.isEmpty && data.profile.status_emoji.isEmpty
      then (.ok none, calls)
      else (.ok (some data.profile), calls)
    else (.error (.slackApiError data.error), calls)

/-- `updateSlackStatus`: reads the current status, and only when none is set
POSTs the new profile with the computed end-of-day expiration; a non-ok
set response throws. -/
def updateSlackStatus (w : World) (env : Env)
    (status_text status_emoji : String) : Except Err Unit × List ApiCall :=
  match getCurrentSlackStatus w env with
  | (.error e, calls) => (.error e, calls)
  | (.ok (some _), calls) => (.ok (), calls)
  | (.ok none, calls) =>
    let status_expiration := endOfDayExpirationSec w.nowMs w.tzOffsetMs
    let calls := calls ++ [ApiCall.profileSet env.SLACK_USER_TOKEN
      status_text status_emoji status_expiration]
    match w.profileSetResp with
    | none => (.error .netError, calls)
    | some data =>
      if data.ok then (.ok (), calls)
      else (.error (.slackApiError data.error), calls)

/-- `sendSlackMessage`: POSTs the fixed reminder to the configured user;
a non-ok response throws. -/
def sendSlackMessage (w : World) (env : Env) : Except Err Unit × List ApiCall :=
  let calls := [ApiCall.postMessage env.SLACK_BOT_TOKEN env.SLACK_USER_ID
    reminderText]
  match w.postMessageResp with
  | none => (.error .netError, calls)
  | some data =>
    if data.ok then (.ok (), calls)
    else (.error (.slackApiError data.error), calls)

/-- `handleStatusUpdate` (worker entry logic): Home sets the status, a falsy
location sends the reminder, anything else (Office) does nothing. -/
def handleStatusUpdate (w : World) (env : Env) : Except Err Unit × List ApiCall :=
  match getGoogleCalendarWorkLocation w env with
  | (.error e, calls) => (.error e, calls)
  | (.ok workLocation, calls) =>
    if workLocation = some "Home" then
      let r := updateSlackStatus w env "Working remotely" ":house_with_garden:"
      (r.1, calls ++ r.2)
    else if jsFalsy workLocation then
      let r := sendSlackMessage w env
      (r.1, calls ++ r.2)
    else (.ok (), calls)

/-- The `scheduled` handler: runs the status update under `try`/`catch`,
logging any error and completing normally. -/
def scheduled (w : World) (env : Env) : Except Err Unit × List ApiCall :=
  match handleStatusUpdate w env with
  | (.error _, calls) => (.ok (), calls)
  | (.ok _, calls) => (.ok (), calls)

/-- The parts of the request URL the `fetch` handler inspects. -/
structure UrlParts where
  pathname : String
  hostname : String
deriving DecidableEq

/-- The `fetch` handler: 404 off the root path, 403 unless the hostname is
`localhost` or `127.0.0.1`, otherwise 200 on success and 500 on a thrown
error. -/
def fetchHandler (w : World) (env : Env) (url : UrlParts) :
    Nat × List ApiCall :=
  if url.pathname ≠ "/" then (404, [])
  else
    let isLocalhost :=
      url.hostname = "localhost" || url.hostname = "127.0.0.1"
    if !isLocalhost then (403, [])
    else
      match handleStatusUpdate w env with
      | (.ok _, calls) => (200, calls)
      | (.error _, calls) => (500, calls)

/-- Recognises a `users.profile.set` call in a trace. -/
def isProfileSet : ApiCall → Bool
  | .profileSet _ _ _ _ => true
  | _ => false

/-- Recognises a `users.profile.get` call in a trace. -/
def isProfileGet : ApiCall → Bool
  | .profileGet _ => true
  | _ => false

/-- Recognises an events-list call in a trace. -/
def isCalendarEvents : ApiCall → Bool
  | .calendarEvents _ => true
  | _ => false

/-- Recognises any `chat.postMessage` call in a trace. -/
def isPostMessage : ApiCall → Bool
  | .postMessage _ _ _ => true
  | _ => false

/-- Recognises the auth-failure diagnostic message in a trace. -/
def isAuthFailureMsg : ApiCall → Bool
  | .postMessage _ _ text => text == authFailureText
  | _ => false

/-- Recognises the reminder message to the configured recipient. -/
def isReminderMsg (env : Env) : ApiCall → Bool
  | .postMessage _ channel text =>
      channel == env.SLACK_USER_ID && text == reminderText
  | _ => false

/-- The per-event classification the scanning loop applies. -/
def eventLoc (e : CalendarEvent) : Option String :=
  match e.workingLocationProperties with
  | none => none
  | some props =>
    if props.type = "officeLocation" then some "Office"
    else if containsHome props.type then some "Home"
    else none

/-- Whether an event carries structured working-location metadata. -/
def hasMeta (e : CalendarEvent) : Bool :=
  e.workingLocationProperties.isSome

/-! ### Concrete fixtures used by witnesses and counterexamples -/

/-- A concrete environment. -/
def env0 : Env :=
  ⟨"client-id", "client-secret", "refresh-tok", "user-tok", "bot-tok", "U123"⟩

/-- A token response delivering a usable access token. -/
def tokOk : TokenResponse := ⟨some "atok", none⟩

/-- A token response with the `access_token` field absent. -/
def tokMissing : TokenResponse := ⟨none, none⟩

/-- An `ok` Slack response. -/
def slackOk : SlackResponse := ⟨true, none⟩

/-- A profile response with neither status text nor emoji set. -/
def profUnset : SlackProfileResponse := ⟨true, ⟨"", ""⟩, none⟩

/-- A profile response whose status text is already set. -/
def profBusy : SlackProfileResponse := ⟨true, ⟨"In a meeting", ""⟩, none⟩

/-- An event declaring `officeLocation` working-location metadata. -/
def evOfficeLoc : CalendarEvent :=
  { workingLocationProperties := some { type := "officeLocation" } }

/-- An event whose working-location type contains "home". -/
def evHomeType : CalendarEvent :=
  { workingLocationProperties := some { type := "homeOffice" } }

/-- An event with `customLocation` metadata whose label is "Home". -/
def evCustomHome : CalendarEvent :=
  { workingLocationProperties :=
      some { type := "customLocation",
             customLocation := some { label := some "Home" } } }

/-- A world whose token refresh delivers no access token and whose
diagnostic send itself throws. -/
def wAuthNetFail : World := ⟨some tokMissing, none, none, none, none, 0, 0⟩

/-- A world whose token refresh delivers no access token; the diagnostic
send is delivered. -/
def wAuthFail : World := ⟨some tokMissing, none, none, none, some slackOk, 0, 0⟩

/-- A world with a Home-typed event and an unset profile. -/
def wHomeUnset : World :=
  ⟨some tokOk, some { items := some [evHomeType] }, some profUnset,
    some slackOk, some slackOk, 0, 0⟩

/-- A world with a Home-typed event and a profile already set. -/
def wHomeBusy : World :=
  ⟨some tokOk, some { items := some [evHomeType] }, some profBusy,
    some slackOk, some slackOk, 0, 0⟩

/-- A world with an office event (decision Office, nothing more to do). -/
def wOffice : World :=
  ⟨some tokOk, some { items := some [evOfficeLoc] }, none, none, none, 0, 0⟩

/-- A world with no events at all (decision Unset). -/
def wNoLoc : World :=
  ⟨some tokOk, some { items := some [] }, none, none, some slackOk, 0, 0⟩

/-! ### Helper lemmas -/

/-- The auth-failure notifier posts its message and returns normally,
whatever the network does. -/
lemma sendAuthFailureNotification_eq (w : World) (env : Env) :
    sendAuthFailureNotification w env =
      (.ok (), [ApiCall.postMessage env.SLACK_BOT_TOKEN env.SLACK_USER_ID
        authFailureText]) := by
  cases h : w.postMessageResp <;>
    simp [sendAuthFailureNotification, attemptAuthFailureNotification, h]

/-- Token refresh with a falsy `access_token` throws after one diagnostic. -/
lemma getGoogleAccessToken_fail (w : World) (env : Env) (t : TokenResponse)
    (ht : w.tokenResp = some t) (hft : jsFalsy t.access_token = true) :
    getGoogleAccessToken w env =
      (.error .authError,
        [ApiCall.tokenRefresh env.GOOGLE_CLIENT_ID env.GOOGLE_CLIENT_SECRET
          env.GOOGLE_REFRESH_TOKEN "refresh_token",
         ApiCall.postMessage env.SLACK_BOT_TOKEN env.SLACK_USER_ID
           authFailureText]) := by
  simp [getGoogleAccessToken, ht, hft, sendAuthFailureNotification_eq]

/-- Token refresh with a usable `access_token` succeeds. -/
lemma getGoogleAccessToken_ok (w : World) (env : Env) (t : TokenResponse)
    (ht : w.tokenResp = some t) (hft : jsFalsy t.access_token = false) :
    getGoogleAccessToken w env =
      (.ok (t.access_token.getD ""),
        [ApiCall.tokenRefresh env.GOOGLE_CLIENT_ID env.GOOGLE_CLIENT_SECRET
          env.GOOGLE_REFRESH_TOKEN "refresh_token"]) := by
  simp [getGoogleAccessToken, ht, hft]

/-- A successful calendar lookup returns the scanned location after the
token call and the events call. -/
lemma getGoogleCalendarWorkLocation_ok (w : World) (env : Env)
    (t : TokenResponse) (c : CalendarResponse)
    (ht : w.tokenResp = some t) (hft : jsFalsy t.access_token = false)
    (hc : w.calendarResp = some c) (hce : c.error = none) :
    getGoogleCalendarWorkLocation w env =
      (.ok (findWorkLocation (c.items.getD [])),
        [ApiCall.tokenRefresh env.GOOGLE_CLIENT_ID env.GOOGLE_CLIENT_SECRET
          env.GOOGLE_REFRESH_TOKEN "refresh_token",
         ApiCall.calendarEvents (t.access_token.getD "")]) := by
  simp [getGoogleCalendarWorkLocation,
    getGoogleAccessToken_ok w env t ht hft, hc, hce]

/-- With an unset profile the updater issues exactly the read and the write,
whatever the write's own response. -/
lemma updateSlackStatus_trace_unset (w : World) (env : Env)
    (text emoji : String) (r : SlackProfileResponse)
    (hpg : w.profileGetResp = some r) (hok : r.ok = true)
    (hunset : (r.profile.status_text.isEmpty &&
      r.profile.status_emoji.isEmpty) = true) :
    (updateSlackStatus w env text emoji).2 =
      [ApiCall.profileGet env.SLACK_USER_TOKEN,
       ApiCall.profileSet env.SLACK_USER_TOKEN text emoji
         (endOfDayExpirationSec w.nowMs w.tzOffsetMs)] := by
  cases hps : w.profileSetResp <;>
    simp [updateSlackStatus, getCurrentSlackStatus, hpg, hok, hunset, hps] <;>
    split <;> simp

/-- With a profile already set the updater only reads and returns. -/
lemma updateSlackStatus_set (w : World) (env : Env)
    (text emoji : String) (r : SlackProfileResponse)
    (hpg : w.profileGetResp = some r) (hok : r.ok = true)
    (hset : (r.profile.status_text.isEmpty &&
      r.profile.status_emoji.isEmpty) = false) :
    updateSlackStatus w env text emoji =
      (.ok (), [ApiCall.profileGet env.SLACK_USER_TOKEN]) := by
  simp [updateSlackStatus, getCurrentSlackStatus, hpg, hok, hset]

/-- The reminder sender issues exactly one post-message call, whatever the
response. -/
lemma sendSlackMessage_trace (w : World) (env : Env) :
    (sendSlackMessage w env).2 =
      [ApiCall.postMessage env.SLACK_BOT_TOKEN env.SLACK_USER_ID
        reminderText] := by
  cases hps : w.postMessageResp <;> simp [sendSlackMessage, hps] <;>
    split <;> simp

/-- The full invocation trace when the decision is Home. -/
lemma handleStatusUpdate_home (w : World) (env : Env)
    (t : TokenResponse) (c : CalendarResponse)
    (ht : w.tokenResp = some t) (hft : jsFalsy t.access_token = false)
    (hc : w.calendarResp = some c) (hce : c.error = none)
    (hw : findWorkLocation (c.items.getD []) = some "Home") :
    handleStatusUpdate w env =
      ((updateSlackStatus w env "Working remotely" ":house_with_garden:").1,
        [ApiCall.tokenRefresh env.GOOGLE_CLIENT_ID env.GOOGLE_CLIENT_SECRET
          env.GOOGLE_REFRESH_TOKEN "refresh_token",
         ApiCall.calendarEvents (t.access_token.getD "")] ++
          (updateSlackStatus w env "Working remotely"
            ":house_with_garden:").2) := by
  simp [handleStatusUpdate,
    getGoogleCalendarWorkLocation_ok w env t c ht hft hc hce, hw]

/-- The full invocation trace when the decision is Unset. -/
lemma handleStatusUpdate_unset (w : World) (env : Env)
    (t : TokenResponse) (c : CalendarResponse)
    (ht : w.tokenResp = some t) (hft : jsFalsy t.access_token = false)
    (hc : w.calendarResp = some c) (hce : c.error = none)
    (hw : findWorkLocation (c.items.getD []) = none) :
    handleStatusUpdate w env =
      ((sendSlackMessage w env).1,
        [ApiCall.tokenRefresh env.GOOGLE_CLIENT_ID env.GOOGLE_CLIENT_SECRET
          env.GOOGLE_REFRESH_TOKEN "refresh_token",
         ApiCall.calendarEvents (t.access_token.getD "")] ++
          (sendSlackMessage w env).2) := by
  simp [handleStatusUpdate,
    getGoogleCalendarWorkLocation_ok w env t c ht hft hc hce, hw, jsFalsy]

/-- The full invocation when the decision is Office: no further call. -/
lemma handleStatusUpdate_office (w : World) (env : Env)
    (t : TokenResponse) (c : CalendarResponse)
    (ht : w.tokenResp = some t) (hft : jsFalsy t.access_token = false)
    (hc : w.calendarResp = some c) (hce : c.error = none)
    (hw : findWorkLocation (c.items.getD []) = some "Office") :
    handleStatusUpdate w env =
      (.ok (),
        [ApiCall.tokenRefresh env.GOOGLE_CLIENT_ID env.GOOGLE_CLIENT_SECRET
          env.GOOGLE_REFRESH_TOKEN "refresh_token",
         ApiCall.calendarEvents (t.access_token.getD "")]) := by
  simp [handleStatusUpdate,
    getGoogleCalendarWorkLocation_ok w env t c ht hft hc hce, hw, jsFalsy]
  exact fun h => absurd h (by decide)

/-- The full invocation when the token refresh fails. -/
lemma handleStatusUpdate_authFail (w : World) (env : Env)
    (t : TokenResponse)
    (ht : w.tokenResp = some t) (hft : jsFalsy t.access_token = true) :
    handleStatusUpdate w env =
      (.error .authError,
        [ApiCall.tokenRefresh env.GOOGLE_CLIENT_ID env.GOOGLE_CLIENT_SECRET
          env.GOOGLE_REFRESH_TOKEN "refresh_token",
         ApiCall.postMessage env.SLACK_BOT_TOKEN env.SLACK_USER_ID
           authFailureText]) := by
  simp [handleStatusUpdate, getGoogleCalendarWorkLocation,
    getGoogleAccessToken_fail w env t ht hft]

/-! ### Claims -/

/-- C2: when the token-refresh response carries no `access_token`, the
invocation sends exactly one auth-failure diagnostic message, performs no
calendar-events call and no status-profile read or write, and aborts with an
authentication error. -/
theorem C2_auth_failure_aborts (w : World) (env : Env) (t : TokenResponse)
    (ht : w.tokenResp = some t) (hft : jsFalsy t.access_token = true) :
    (handleStatusUpdate w env).1 = .error .authError ∧
    (handleStatusUpdate w env).2.countP isAuthFailureMsg = 1 ∧
    (handleStatusUpdate w env).2.countP isCalendarEvents = 0 ∧
    (handleStatusUpdate w env).2.countP isProfileGet = 0 ∧
    (handleStatusUpdate w env).2.countP isProfileSet = 0 := by
  rw [handleStatusUpdate_authFail w env t ht hft]
  simp [isAuthFailureMsg, isCalendarEvents, isProfileGet, isProfileSet,
    List.countP_cons]

/-- Witness for C2 at a concrete world. -/
theorem C2_auth_failure_aborts_witness :
    (handleStatusUpdate wAuthFail env0).1 = .error .authError ∧
    (handleStatusUpdate wAuthFail env0).2.countP isAuthFailureMsg = 1 ∧
    (handleStatusUpdate wAuthFail env0).2.countP isCalendarEvents = 0 ∧
    (handleStatusUpdate wAuthFail env0).2.countP isProfileGet = 0 ∧
    (handleStatusUpdate wAuthFail env0).2.countP isProfileSet = 0 :=
  C2_auth_failure_aborts wAuthFail env0 tokMissing rfl (by decide)

/-- C3: when no event yields a recognized work location, exactly one
reminder with the fixed text is posted to the configured recipient, every
posted message is that reminder, and no profile write occurs. -/
theorem C3_unset_location_reminder (w : World) (env : Env)
    (t : TokenResponse) (c : CalendarResponse)
    (ht : w.tokenResp = some t) (hft : jsFalsy t.access_token = false)
    (hc : w.calendarResp = some c) (hce : c.error = none)
    (hw : findWorkLocation (c.items.getD []) = none) :
    (handleStatusUpdate w env).2.countP (isReminderMsg env) = 1 ∧
    (handleStatusUpdate w env).2.countP isPostMessage = 1 ∧
    (∀ call ∈ (handleStatusUpdate w env).2, isPostMessage call = true →
      call = ApiCall.postMessage env.SLACK_BOT_TOKEN env.SLACK_USER_ID
        reminderText) ∧
    (handleStatusUpdate w env).2.countP isProfileSet = 0 := by
  rw [handleStatusUpdate_unset w env t c ht hft hc hce hw]
  simp [sendSlackMessage_trace, isReminderMsg, isPostMessage, isProfileSet,
    List.countP_cons, isAuthFailureMsg]

/-- Witness for C3 at a concrete world. -/
theorem C3_unset_location_reminder_witness :
    (handleStatusUpdate wNoLoc env0).2.countP (isReminderMsg env0) = 1 ∧
    (handleStatusUpdate wNoLoc env0).2.countP isPostMessage = 1 ∧
    (handleStatusUpdate wNoLoc env0).2.countP isProfileSet = 0 :=
  ⟨(C3_unset_location_reminder wNoLoc env0 tokOk { items := some [] }
      rfl (by decide) rfl rfl rfl).1,
   (C3_unset_location_reminder wNoLoc env0 tokOk { items := some [] }
      rfl (by decide) rfl rfl rfl).2.1,
   (C3_unset_location_reminder wNoLoc env0 tokOk { items := some [] }
      rfl (by decide) rfl rfl rfl).2.2.2⟩

/-- C9: the auth-failure notifier returns normally for every outcome of its
outbound send, and a failed token refresh still reports the authentication
error as the invocation's error. -/
theorem C9_auth_notifier_never_throws (w : World) (env : Env) :
    (sendAuthFailureNotification w env).1 = .ok () ∧
    (∀ t : TokenResponse, w.tokenResp = some t →
      jsFalsy t.access_token = true →
      (getGoogleAccessToken w env).1 = .error .authError) := by
  refine ⟨?_, ?_⟩
  · rw [sendAuthFailureNotification_eq]
  · intro t ht hft
    rw [getGoogleAccessToken_fail w env t ht hft]

/-- Witness for C9 at a world whose diagnostic send itself throws. -/
theorem C9_auth_notifier_never_throws_witness :
    (sendAuthFailureNotification wAuthNetFail env0).1 = .ok () ∧
    (getGoogleAccessToken wAuthNetFail env0).1 = .error .authError :=
  ⟨(C9_auth_notifier_never_throws wAuthNetFail env0).1,
   (C9_auth_notifier_never_throws wAuthNetFail env0).2 tokMissing rfl
     (by decide)⟩

/-- C10: the scheduled entry point completes normally for every outcome of
the status-update pass. -/
theorem C10_scheduled_never_throws (w : World) (env : Env) :
    (scheduled w env).1 = .ok () := by
  rcases hr : handleStatusUpdate w env with ⟨res, calls⟩
  cases res <;> simp [scheduled, hr]

/-- C1: with decision Home, exactly one profile-set call occurs iff the
fetched profile is unset (both text and emoji empty); otherwise zero. -/
theorem C1_home_profile_set_iff_unset (w : World) (env : Env)
    (t : TokenResponse) (c : CalendarResponse) (r : SlackProfileResponse)
    (ht : w.tokenResp = some t) (hft : jsFalsy t.access_token = false)
    (hc : w.calendarResp = some c) (hce : c.error = none)
    (hw : findWorkLocation (c.items.getD []) = some "Home")
    (hpg : w.profileGetResp = some r) (hok : r.ok = true) :
    ((handleStatusUpdate w env).2.countP isProfileSet = 1 ↔
      (r.profile.status_text.isEmpty && r.profile.status_emoji.isEmpty)
        = true) ∧
    ((r.profile.status_text.isEmpty && r.profile.status_emoji.isEmpty)
        = false →
      (handleStatusUpdate w env).2.countP isProfileSet = 0) := by
  rw [handleStatusUpdate_home w env t c ht hft hc hce hw]
  cases hb : (r.profile.status_text.isEmpty && r.profile.status_emoji.isEmpty)
  · rw [updateSlackStatus_set w env _ _ r hpg hok hb]
    simp [isProfileSet, List.countP_cons]
  · rw [updateSlackStatus_trace_unset w env _ _ r hpg hok hb]
    simp [isProfileSet, List.countP_cons]

/-- Witness for C1: one write at an unset profile, none at a set one. -/
theorem C1_home_profile_set_iff_unset_witness :
    (handleStatusUpdate wHomeUnset env0).2.countP isProfileSet = 1 ∧
    (handleStatusUpdate wHomeBusy env0).2.countP isProfileSet = 0 :=
  ⟨(C1_home_profile_set_iff_unset wHomeUnset env0 tokOk
      { items := some [evHomeType] } profUnset rfl (by decide) rfl rfl
      (by decide) rfl rfl).1.mpr (by decide),
   (C1_home_profile_set_iff_unset wHomeBusy env0 tokOk
      { items := some [evHomeType] } profBusy rfl (by decide) rfl rfl
      (by decide) rfl rfl).2 (by decide)⟩

/-- One scanning step, expressed through the per-event classifier. -/
lemma findWorkLocation_cons (e : CalendarEvent) (l : List CalendarEvent) :
    findWorkLocation (e :: l) =
      match eventLoc e with
      | some r => some r
      | none => findWorkLocation l := by
  simp only [findWorkLocation, eventLoc]
  cases e.workingLocationProperties with
  | none => rfl
  | some p =>
    by_cases h1 : p.type = "officeLocation"
    · simp [h1]
    · by_cases h2 : containsHome p.type <;> simp [h1, h2]

/-- C4, refuted as stated: an `officeLocation` event in the day's list does
not force decision Office — a preceding home-typed event wins. -/
theorem C4_office_counterexample :
    (evOfficeLoc ∈ [evHomeType, evOfficeLoc] ∧
      evOfficeLoc.workingLocationProperties.map
        WorkingLocationProperties.type = some "officeLocation") ∧
    findWorkLocation [evHomeType, evOfficeLoc] ≠ some "Office" ∧
    findWorkLocation [evHomeType, evOfficeLoc] = some "Home" := by
  decide

/-- C4 as amended: if the first event yielding a recognized location is an
`officeLocation` event, the decision is Office; and an Office decision
causes no status write, no message, and no profile read. -/
theorem C4_office_first_recognized :
    (∀ (l : List CalendarEvent) (e : CalendarEvent),
      l.find? (fun x => (eventLoc x).isSome) = some e →
      eventLoc e = some "Office" → findWorkLocation l = some "Office") ∧
    (∀ (w : World) (env : Env) (t : TokenResponse) (c : CalendarResponse),
      w.tokenResp = some t → jsFalsy t.access_token = false →
      w.calendarResp = some c → c.error = none →
      findWorkLocation (c.items.getD []) = some "Office" →
      (handleStatusUpdate w env).1 = .ok () ∧
      (handleStatusUpdate w env).2.countP isProfileSet = 0 ∧
      (handleStatusUpdate w env).2.countP isPostMessage = 0 ∧
      (handleStatusUpdate w env).2.countP isProfileGet = 0) := by
  constructor
  · intro l
    induction l with
    | nil => intro e h _; simp at h
    | cons x xs ih =>
      intro e h hoff
      rw [findWorkLocation_cons]
      cases hx : eventLoc x with
      | some v =>
        have hfind : List.find? (fun x => (eventLoc x).isSome) (x :: xs)
            = some x :=
          List.find?_cons_of_pos xs (by simp [hx])
        rw [hfind] at h
        have hxe : x = e := Option.some.inj h
        rw [hxe, hoff] at hx
        rw [hx]
      | none =>
        have hfind : List.find? (fun x => (eventLoc x).isSome) (x :: xs)
            = List.find? (fun x => (eventLoc x).isSome) xs :=
          List.find?_cons_of_neg xs (by simp [hx])
        rw [hfind] at h
        exact ih e h hoff
  · intro w env t c ht hft hc hce hw
    rw [handleStatusUpdate_office w env t c ht hft hc hce hw]
    simp [isProfileSet, isPostMessage, isProfileGet, List.countP_cons]

/-- Witness for C4 (amended) at a concrete world. -/
theorem C4_office_first_recognized_witness :
    findWorkLocation [evOfficeLoc] = some "Office" ∧
    ((handleStatusUpdate wOffice env0).1 = .ok () ∧
      (handleStatusUpdate wOffice env0).2.countP isProfileSet = 0 ∧
      (handleStatusUpdate wOffice env0).2.countP isPostMessage = 0 ∧
      (handleStatusUpdate wOffice env0).2.countP isProfileGet = 0) :=
  ⟨C4_office_first_recognized.1 [evOfficeLoc] evOfficeLoc (by decide)
      (by decide),
   C4_office_first_recognized.2 wOffice env0 tokOk
      { items := some [evOfficeLoc] } rfl (by decide) rfl rfl (by decide)⟩

/-- C5, refuted as stated: two event lists sharing the same first
metadata-carrying event produce different results, so that event does not
determine the returned location. -/
theorem C5_first_metadata_counterexample :
    [evCustomHome].find? hasMeta = [evCustomHome, evOfficeLoc].find? hasMeta
    ∧ findWorkLocation [evCustomHome]
      ≠ findWorkLocation [evCustomHome, evOfficeLoc]
    ∧ findWorkLocation [evCustomHome] = none
    ∧ findWorkLocation [evCustomHome, evOfficeLoc] = some "Office" := by
  decide

/-- C5 as amended: the scan returns the classification of the first event
whose metadata yields a recognized location and Unset when there is none,
and the events request asks for start-time order. -/
theorem C5_first_recognized_scan :
    (∀ l : List CalendarEvent, findWorkLocation l = l.findSome? eventLoc) ∧
    (∀ timeMin timeMax : String, ∃ pre post : String,
      calendarEventsUrl timeMin timeMax
        = pre ++ "&orderBy=startTime" ++ post) := by
  constructor
  · intro l
    induction l with
    | nil => rfl
    | cons x xs ih =>
      rw [findWorkLocation_cons, List.findSome?_cons]
      cases hx : eventLoc x <;> simp [hx, ih]
  · intro timeMin timeMax
    refine ⟨"https://www.googleapis.com/calendar/v3/calendars/primary/events?"
      ++ "timeMin=" ++ timeMin ++ "&timeMax=" ++ timeMax,
      "&singleEvents=true&timeZone=UTC", ?_⟩
    have h : ("&orderBy=startTime&singleEvents=true&timeZone=UTC" : String)
        = "&orderBy=startTime" ++ "&singleEvents=true&timeZone=UTC" := by
      decide
    simp only [calendarEventsUrl, h, String.append_assoc]

/-- C6, refuted as stated: a `customLocation` event whose declared location
label is "Home" is not mapped to Home — the code matches "home" against the
metadata type, not the label. -/
theorem C6_custom_label_counterexample :
    hasMeta evCustomHome = true ∧
    ((evCustomHome.workingLocationProperties.bind
        WorkingLocationProperties.customLocation).bind
      CustomLocationProps.label) = some "Home" ∧
    containsHome "Home" = true ∧
    findWorkLocation [evCustomHome] = none := by
  decide

/-- C6 as amended: an event whose working-location type contains "home"
case-insensitively is classified Home, and determines decision Home when it
heads the list. -/
theorem C6_home_type_maps_home (e : CalendarEvent)
    (p : WorkingLocationProperties) (rest : List CalendarEvent)
    (h1 : e.workingLocationProperties = some p)
    (h2 : containsHome p.type = true) :
    eventLoc e = some "Home" ∧ findWorkLocation (e :: rest) = some "Home" := by
  have hne : p.type ≠ "officeLocation" := by
    intro hcontra
    rw [hcontra] at h2
    exact absurd h2 (by decide)
  constructor
  · simp [eventLoc, h1, hne, h2]
  · simp [findWorkLocation, h1, hne, h2]

/-- Witness for C6 (amended) at a concrete event. -/
theorem C6_home_type_maps_home_witness :
    eventLoc evHomeType = some "Home" ∧
    findWorkLocation [evHomeType] = some "Home" :=
  C6_home_type_maps_home evHomeType { type := "homeOffice" } [] rfl
    (by decide)

/-- C7: routing of the manual trigger — 404 off the root path, 403 for a
non-loopback hostname, 200 on a successful status check, 500 on a thrown
one. -/
theorem C7_fetch_routing (w : World) (env : Env) (url : UrlParts) :
    (url.pathname ≠ "/" → (fetchHandler w env url).1 = 404) ∧
    (url.pathname = "/" →
      ¬(url.hostname = "localhost" ∨ url.hostname = "127.0.0.1") →
      (fetchHandler w env url).1 = 403) ∧
    (url.pathname = "/" →
      (url.hostname = "localhost" ∨ url.hostname = "127.0.0.1") →
      (handleStatusUpdate w env).1 = .ok () →
      (fetchHandler w env url).1 = 200) ∧
    (url.pathname = "/" →
      (url.hostname = "localhost" ∨ url.hostname = "127.0.0.1") →
      ∀ e : Err, (handleStatusUpdate w env).1 = .error e →
      (fetchHandler w env url).1 = 500) := by
  rcases hr : handleStatusUpdate w env with ⟨res, calls⟩
  refine ⟨?_, ?_, ?_, ?_⟩
  · intro hp
    simp [fetchHandler, hp]
  · intro hp hh
    obtain ⟨hh1, hh2⟩ := not_or.mp hh
    simp [fetchHandler, hp, hh1, hh2]
  · intro hp hloc hok
    have hok' : res = Except.ok () := hok
    rcases hloc with hl | hl <;> subst hok' <;>
      simp [fetchHandler, hp, hl, hr]
  · intro hp hloc e herr
    have herr' : res = Except.error e := herr
    rcases hloc with hl | hl <;> subst herr' <;>
      simp [fetchHandler, hp, hl, hr]

/-- Witness for C7: all four routes at concrete requests. -/
theorem C7_fetch_routing_witness :
    (fetchHandler wOffice env0 ⟨"/other", "localhost"⟩).1 = 404 ∧
    (fetchHandler wOffice env0 ⟨"/", "example.com"⟩).1 = 403 ∧
    (fetchHandler wOffice env0 ⟨"/", "localhost"⟩).1 = 200 ∧
    (fetchHandler wAuthFail env0 ⟨"/", "127.0.0.1"⟩).1 = 500 :=
  ⟨(C7_fetch_routing wOffice env0 ⟨"/other", "localhost"⟩).1 (by decide),
   (C7_fetch_routing wOffice env0 ⟨"/", "example.com"⟩).2.1 rfl (by decide),
   (C7_fetch_routing wOffice env0 ⟨"/", "localhost"⟩).2.2.1 rfl
     (Or.inl rfl) rfl,
   (C7_fetch_routing wAuthFail env0 ⟨"/", "127.0.0.1"⟩).2.2.2 rfl
     (Or.inr rfl) Err.authError rfl⟩

/-- The computed expiration is the 23:59:59 end-of-day instant plus the 999
extra milliseconds the code sets. -/
lemma endOfDayExpirationSec_eq (nowMs tzOffsetMs : Int) :
    endOfDayExpirationSec nowMs tzOffsetMs =
      specEndOfDay235959Sec nowMs tzOffsetMs + 999 / 1000 := by
  unfold endOfDayExpirationSec specEndOfDay235959Sec endOfDayLocalMs
  rw [div_add_div_same]
  congr 1
  push_cast
  ring

/-- C8, refuted as stated: the written payload's expiration differs from
the end-of-day instant 23:59:59 (at epoch 0 in UTC the payload carries
86399.999, not 86399). -/
theorem C8_expiration_counterexample :
    (updateSlackStatus wHomeUnset env0 "Working remotely"
        ":house_with_garden:").2 =
      [ApiCall.profileGet "user-tok",
       ApiCall.profileSet "user-tok" "Working remotely"
         ":house_with_garden:" (endOfDayExpirationSec 0 0)] ∧
    endOfDayExpirationSec 0 0 ≠ specEndOfDay235959Sec 0 0 ∧
    specEndOfDay235959Sec 0 0 = (86399 : ℚ) ∧
    endOfDayExpirationSec 0 0 = (86399999 : ℚ) / 1000 := by
  refine ⟨?_, ?_, ?_, ?_⟩
  · exact updateSlackStatus_trace_unset wHomeUnset env0 _ _ profUnset rfl rfl
      (by decide)
  · norm_num [endOfDayExpirationSec, specEndOfDay235959Sec, endOfDayLocalMs,
      msPerDay]
  · norm_num [specEndOfDay235959Sec, msPerDay]
  · norm_num [endOfDayExpirationSec, endOfDayLocalMs, msPerDay]

/-- C8 as amended: every status-set write carries the requested text and
icon and an expiration of 23:59:59.999 of the current (local) day, i.e. the
23:59:59 end-of-day instant plus 0.999 s. -/
theorem C8_expiration_end_of_day (w : World) (env : Env)
    (text emoji : String) (r : SlackProfileResponse)
    (hpg : w.profileGetResp = some r) (hok : r.ok = true)
    (hunset : (r.profile.status_text.isEmpty &&
      r.profile.status_emoji.isEmpty) = true) :
    (updateSlackStatus w env text emoji).2 =
      [ApiCall.profileGet env.SLACK_USER_TOKEN,
       ApiCall.profileSet env.SLACK_USER_TOKEN text emoji
         (specEndOfDay235959Sec w.nowMs w.tzOffsetMs + 999 / 1000)] := by
  rw [updateSlackStatus_trace_unset w env text emoji r hpg hok hunset,
    endOfDayExpirationSec_eq]

/-- Witness for C8 (amended) at a concrete world. -/
theorem C8_expiration_end_of_day_witness :
    (updateSlackStatus wHomeUnset env0 "Working remotely"
        ":house_with_garden:").2 =
      [ApiCall.profileGet env0.SLACK_USER_TOKEN,
       ApiCall.profileSet env0.SLACK_USER_TOKEN "Working remotely"
         ":house_with_garden:" (specEndOfDay235959Sec 0 0 + 999 / 1000)] :=
  C8_expiration_end_of_day wHomeUnset env0 "Working remotely"
    ":house_with_garden:" profUnset rfl rfl (by decide)

end SlackStatusUpdater
